import Mathlib

/-!
Shallow embedding of the nbdsrv NBD server (src/proto.rs, src/driver/mod.rs,
src/driver/fs.rs, src/server.rs) and proofs about it.

Conventions of the embedding:
* machine integers (`u16`, `u32`, `u64`, `usize`) are modelled as `Nat`,
  reduced modulo `2 ^ w` exactly where the source serialises them;
* byte streams are `List UInt8`; a socket write is modelled by the list of
  bytes (or structured replies) it produces;
* fallible Rust functions returning `io::Result` are modelled with `Except`
  over an error-kind type;
* `bitflags` bit sets are modelled as the underlying `Nat` bit patterns.
-/

namespace Nbdsrv

/-- Models the `std::io::ErrorKind` values the server actually constructs. -/
inductive ErrKind where
  | invalidData
  | invalidInput
  | other
deriving DecidableEq, Repr

/-! ## proto.rs : constants, flags, enums -/

def INIT_PASSWD : Nat := 0x4e42444d41474943
def IHAVEOPT : Nat := 0x49484156454F5054
def NBD_REQUEST_MAGIC : Nat := 0x25609513
def NBD_OPT_REPLY_MAGIC : Nat := 0x3e889045565a9
def NBD_NEWSTYLE_PORT : Nat := 10809
def MAX_OPTION_DATA_LEN : Nat := 4096

namespace NbdHandshakeFlag
def FIXED_NEWSTYLE : Nat := 0x0001
def NO_ZEROES : Nat := 0x0002
end NbdHandshakeFlag

namespace NbdClientFlag
def FIXED_NEWSTYLE : Nat := 0x0001
def NO_ZEROES : Nat := 0x0002
/-- Models `bitflags` `contains`: all bits of `flag` are set in `bits`. -/
def contains (bits flag : Nat) : Bool := bits &&& flag == flag
end NbdClientFlag

namespace NbdTxFlag
def HAS_FLAGS : Nat := 0x0001
def READ_ONLY : Nat := 0x0002
def SEND_FLUSH : Nat := 0x0004
def SEND_FUA : Nat := 0x0008
def SEND_ROTATIONAL : Nat := 0x0010
def SEND_TRIM : Nat := 0x0020
def SEND_WRITE_ZEROES : Nat := 0x0040
def SEND_DF : Nat := 0x0080
def CAN_MULTI_CONN : Nat := 0x0100
def SEND_RESIZE : Nat := 0x0200
def SEND_CACHE : Nat := 0x0400
def SEND_FAST_ZERO : Nat := 0x0800
def BLOCK_STATUS_PAYLOAD : Nat := 0x1000
end NbdTxFlag

/-- Models `NbdOpt` (src/proto.rs): the option codes the codec recognises. -/
inductive NbdOpt where
  | ExportName
  | Abort
  | List
  | PeekExport
  | Starttls
  | Info
  | Go
  | StructuredReply
  | ListMetaContext
  | SetMetaContext
  | ExtendedHeaders
deriving DecidableEq, BEq, Repr

/-- The `u32` discriminant of each option code. -/
def NbdOpt.code : NbdOpt → Nat
  | .ExportName => 1
  | .Abort => 2
  | .List => 3
  | .PeekExport => 4
  | .Starttls => 5
  | .Info => 6
  | .Go => 7
  | .StructuredReply => 8
  | .ListMetaContext => 9
  | .SetMetaContext => 10
  | .ExtendedHeaders => 11

/-- Models `NbdOptReply` (src/proto.rs): option-reply codes, an `i32` enum. -/
inductive NbdOptReply where
  | Ack
  | Server
  | Info
  | MetaContext
  | ErrUnsup
  | ErrPolicy
  | ErrInvalid
  | ErrPlatform
  | ErrTlsReqd
  | ErrUnknown
  | ErrShutdown
  | ErrBlockSizeReqd
  | ErrTooBig
  | ErrExtHeaderReqd
deriving DecidableEq, BEq, Repr

/-- The `i32` discriminant of each option-reply code. -/
def NbdOptReply.code : NbdOptReply → Int
  | .Ack => 1
  | .Server => 2
  | .Info => 3
  | .MetaContext => 4
  | .ErrUnsup => -1
  | .ErrPolicy => -2
  | .ErrInvalid => -3
  | .ErrPlatform => -4
  | .ErrTlsReqd => -5
  | .ErrUnknown => -6
  | .ErrShutdown => -7
  | .ErrBlockSizeReqd => -8
  | .ErrTooBig => -9
  | .ErrExtHeaderReqd => -10

/-- Reinterpret a `u32` value as an `i32` (Rust `as i32`). -/
def i32OfU32 (n : Nat) : Int :=
  if n % 2 ^ 32 < 2 ^ 31 then (n % 2 ^ 32 : Nat) else (n % 2 ^ 32 : Nat) - 2 ^ 32

/-! ## Byte serialisation helpers (tokio `write_u64` / `write_u16` etc.) -/

/-- Big-endian bytes of a `u16` (tokio `write_u16`). -/
def u16BE (n : Nat) : List UInt8 :=
  [UInt8.ofNat (n / 2 ^ 8 % 2 ^ 8), UInt8.ofNat (n % 2 ^ 8)]

/-- Big-endian bytes of a `u32` (tokio `write_u32`). -/
def u32BE (n : Nat) : List UInt8 :=
  [UInt8.ofNat (n / 2 ^ 24 % 2 ^ 8), UInt8.ofNat (n / 2 ^ 16 % 2 ^ 8),
   UInt8.ofNat (n / 2 ^ 8 % 2 ^ 8), UInt8.ofNat (n % 2 ^ 8)]

/-- Big-endian bytes of a `u64` (tokio `write_u64`). -/
def u64BE (n : Nat) : List UInt8 :=
  [UInt8.ofNat (n / 2 ^ 56 % 2 ^ 8), UInt8.ofNat (n / 2 ^ 48 % 2 ^ 8),
   UInt8.ofNat (n / 2 ^ 40 % 2 ^ 8), UInt8.ofNat (n / 2 ^ 32 % 2 ^ 8),
   UInt8.ofNat (n / 2 ^ 24 % 2 ^ 8), UInt8.ofNat (n / 2 ^ 16 % 2 ^ 8),
   UInt8.ofNat (n / 2 ^ 8 % 2 ^ 8), UInt8.ofNat (n % 2 ^ 8)]

/-- Native-endian bytes of a `u32` (`bytes::BufMut::put_u32_ne`); the target
is little-endian, so the low byte comes first. -/
def u32NE (n : Nat) : List UInt8 :=
  [UInt8.ofNat (n % 2 ^ 8), UInt8.ofNat (n / 2 ^ 8 % 2 ^ 8),
   UInt8.ofNat (n / 2 ^ 16 % 2 ^ 8), UInt8.ofNat (n / 2 ^ 24 % 2 ^ 8)]

/-! ## UTF-8 encoding / validating decoding

`String::from_utf8` (used by the ExportName handler) validates its input;
`str::as_bytes` / `String::into_bytes` encode.  The decoder below follows the
byte-range table of Rust's `core::str` UTF-8 validation: it rejects
continuation-byte starts, overlong encodings, surrogate code points and code
points above U+10FFFF. -/

/-- UTF-8 bytes of one scalar value. -/
def utf8EncodeChar (c : Char) : List UInt8 :=
  let n := c.toNat
  if n ≤ 0x7F then
    [UInt8.ofNat n]
  else if n ≤ 0x7FF then
    [UInt8.ofNat (0xC0 + n / 2 ^ 6), UInt8.ofNat (0x80 + n % 2 ^ 6)]
  else if n ≤ 0xFFFF then
    [UInt8.ofNat (0xE0 + n / 2 ^ 12), UInt8.ofNat (0x80 + n / 2 ^ 6 % 2 ^ 6),
     UInt8.ofNat (0x80 + n % 2 ^ 6)]
  else
    [UInt8.ofNat (0xF0 + n / 2 ^ 18), UInt8.ofNat (0x80 + n / 2 ^ 12 % 2 ^ 6),
     UInt8.ofNat (0x80 + n / 2 ^ 6 % 2 ^ 6), UInt8.ofNat (0x80 + n % 2 ^ 6)]

/-- UTF-8 bytes of a string (`str::as_bytes` / `String::into_bytes`). -/
def utf8Encode (s : String) : List UInt8 :=
  s.data.flatMap utf8EncodeChar

/-- Is `b` a UTF-8 continuation byte in `0x80 ..= 0xBF`? -/
def isCont (b : UInt8) : Bool := 0x80 ≤ b.toNat && b.toNat ≤ 0xBF

/-- Validating UTF-8 decoder over a byte list, following the acceptance
ranges of Rust's `core::str` validation (`String::from_utf8`). -/
def utf8DecodeList : List UInt8 → Option (List Char)
  | [] => some []
  | b :: bs =>
    let n := b.toNat
    if n ≤ 0x7F then
      (utf8DecodeList bs).map (fun cs => Char.ofNat n :: cs)
    else if n < 0xC2 then
      none
    else if n ≤ 0xDF then
      match bs with
      | b1 :: bs1 =>
        if isCont b1 then
          (utf8DecodeList bs1).map
            (fun cs => Char.ofNat ((n - 0xC0) * 2 ^ 6 + (b1.toNat - 0x80)) :: cs)
        else none
      | [] => none
    else if n ≤ 0xEF then
      match bs with
      | b1 :: b2 :: bs2 =>
        let okB1 :=
          if n = 0xE0 then 0xA0 ≤ b1.toNat && b1.toNat ≤ 0xBF
          else if n = 0xED then 0x80 ≤ b1.toNat && b1.toNat ≤ 0x9F
          else isCont b1
        if okB1 && isCont b2 then
          (utf8DecodeList bs2).map
            (fun cs =>
              Char.ofNat ((n - 0xE0) * 2 ^ 12 + (b1.toNat - 0x80) * 2 ^ 6 +
                (b2.toNat - 0x80)) :: cs)
        else none
      | _ => none
    else if n ≤ 0xF4 then
      match bs with
      | b1 :: b2 :: b3 :: bs3 =>
        let okB1 :=
          if n = 0xF0 then 0x90 ≤ b1.toNat && b1.toNat ≤ 0xBF
          else if n = 0xF4 then 0x80 ≤ b1.toNat && b1.toNat ≤ 0x8F
          else isCont b1
        if okB1 && isCont b2 && isCont b3 then
          (utf8DecodeList bs3).map
            (fun cs =>
              Char.ofNat ((n - 0xF0) * 2 ^ 18 + (b1.toNat - 0x80) * 2 ^ 12 +
                (b2.toNat - 0x80) * 2 ^ 6 + (b3.toNat - 0x80)) :: cs)
        else none
      | _ => none
    else
      none

/-- Models `String::from_utf8`: decode a byte vector, failing on invalid UTF-8. -/
def utf8Decode (data : List UInt8) : Option String :=
  (utf8DecodeList data).map String.mk

/-! ## src/driver/mod.rs : ImageDesc, Driver, registry -/

/-- Models `ImageDesc` (src/driver/mod.rs): a driver name plus an image name. -/
structure ImageDesc where
  driver_name : String
  name : String
deriving DecidableEq, Repr

/-- Models `ImageDesc::full_name`: `format!("{}/{}", self.name, self.driver_name)`. -/
def ImageDesc.full_name (d : ImageDesc) : String :=
  d.name ++ "/" ++ d.driver_name

/-- Models `str::split_once` on a character pattern: split at the first occurrence,
on lists of characters. -/
def splitOnceAux (c : Char) : List Char → Option (List Char × List Char)
  | [] => none
  | x :: xs =>
    if x = c then some ([], xs)
    else
      match splitOnceAux c xs with
      | some (a, b) => some (x :: a, b)
      | none => none

/-- Models `str::split_once('/')` lifted to `String`. -/
def splitOnce (s : String) (c : Char) : Option (String × String) :=
  match splitOnceAux c s.data with
  | some (a, b) => some (String.mk a, String.mk b)
  | none => none

/-- Models `<ImageDesc as FromStr>::from_str` (src/driver/mod.rs): split at the
first '/', require both sides non-empty, bind the left side to
`driver_name` and the right side to `name`. -/
def ImageDesc.fromStr (s : String) : Except ErrKind ImageDesc :=
  match splitOnce s '/' with
  | some (drv, image) =>
    if drv.isEmpty || image.isEmpty then
      Except.error ErrKind.invalidData
    else
      Except.ok { driver_name := drv, name := image }
  | none => Except.error ErrKind.invalidData

/-- Models `ImageInfo` (src/driver/mod.rs). -/
structure ImageInfo where
  size : Nat
  readonly : Bool
deriving DecidableEq, Repr

/-- A value of the `ImageImpl` trait object: `name()` and `info()`. -/
structure ImageModel where
  name : String
  info : ImageInfo
deriving DecidableEq, Repr

/-- Models `Image` (src/driver/mod.rs): handle owning a boxed `ImageImpl`. -/
structure Image where
  blkdev_impl : ImageModel
deriving DecidableEq, Repr

def Image.info (i : Image) : ImageInfo := i.blkdev_impl.info

/-- A value of the `DriverImpl` trait object: its `name()` and its `open`
behaviour, modelled as a function from descriptor to result. -/
structure DriverImplModel where
  name : String
  openImage : ImageDesc → Except ErrKind Image

/-- Models `Driver` (src/driver/mod.rs): handle owning a boxed `DriverImpl`;
equality and hashing in the source go through `name()` only. -/
structure Driver where
  driver_impl : DriverImplModel

def Driver.name (d : Driver) : String := d.driver_impl.name

/-- Models `DriverImpl::open` reached through the `Deref` impl on `Driver`. -/
def Driver.openImage (d : Driver) (desc : ImageDesc) : Except ErrKind Image :=
  d.driver_impl.openImage desc

/-- Models `Driver::from_impl`. -/
def Driver.from_impl (i : DriverImplModel) : Driver := ⟨i⟩

/-- Models `DriverConfig` (src/driver/mod.rs): a string-to-string map. -/
structure DriverConfig where
  config : List (String × String)

/-- A value of the `DriverConstructor` trait: `name()` and `construct`. -/
structure DriverConstructorModel where
  name : String
  construct : DriverConfig → DriverImplModel

/-- Models `DriverRegistry` (src/driver/mod.rs): the ordered list of registered
constructors. -/
structure DriverRegistry where
  driver_constructors : List DriverConstructorModel

/-- Models `DriverRegistry::register_driver`: unconditionally pushes the new
constructor at the end of the list. -/
def DriverRegistry.register_driver (r : DriverRegistry)
    (c : DriverConstructorModel) : DriverRegistry :=
  ⟨r.driver_constructors ++ [c]⟩

/-- Models `DriverRegistry::list_drivers`. -/
def DriverRegistry.list_drivers (r : DriverRegistry) : List String :=
  r.driver_constructors.map (fun item => item.name)

/-- Models `DriverRegistry::get_driver`: first constructor with a matching name,
then `construct`. -/
def DriverRegistry.get_driver (r : DriverRegistry) (name : String)
    (config : DriverConfig) : Option Driver :=
  (r.driver_constructors.find? (fun item => item.name == name)).map
    (fun constructor => Driver.from_impl (constructor.construct config))

/-- Models `FsDriver` (src/driver/fs.rs).  Its `get_image`/`open` bodies are
`unimplemented!()` in the source; the panic is modelled as an error value
(no claim depends on it). -/
def FsDriver : DriverImplModel :=
  { name := "fs", openImage := fun _ => Except.error ErrKind.other }

/-- Models `FsDriverConstructor` (src/driver/fs.rs): named `"fs"`, constructs an
`FsDriver` ignoring the configuration. -/
def FsDriverConstructor : DriverConstructorModel :=
  { name := "fs", construct := fun _ => FsDriver }

/-- Models `fs::init_driver` (src/driver/fs.rs). -/
def initDriver (r : DriverRegistry) : DriverRegistry :=
  r.register_driver FsDriverConstructor

/-- Models `DriverRegistry::new`: empty list, then `fs::init_driver`. -/
def DriverRegistry.new : DriverRegistry :=
  initDriver ⟨[]⟩

/-! ## src/server.rs : server state, shard, replies, option handlers -/

/-- Models `DEFAULT_TX_FLAGS` (src/server.rs): the `NbdTxFlag` bit set
`HAS_FLAGS | SEND_FLUSH | SEND_TRIM | SEND_WRITE_ZEROES`. -/
def DEFAULT_TX_FLAGS : Nat :=
  NbdTxFlag.HAS_FLAGS ||| NbdTxFlag.SEND_FLUSH ||| NbdTxFlag.SEND_TRIM |||
    NbdTxFlag.SEND_WRITE_ZEROES

/-- Models `ZEROS` (src/server.rs): 128 zero bytes. -/
def ZEROS : List UInt8 := List.replicate 128 0

/-- Models `ServerState` (src/server.rs); the `HashMap<Driver, Vec<ImageDesc>>` is
modelled as an association list (iteration order of a snapshot). -/
structure ServerState where
  default_driver : Option Driver
  images : List (Driver × List ImageDesc)

/-- Models `ServerState::list_images`: flatten the map into driver/descriptor
pairs. -/
def ServerState.list_images (st : ServerState) : List (Driver × ImageDesc) :=
  st.images.flatMap (fun kv => kv.2.map (fun image => (kv.1, image)))

/-- Models `ServerState::list_images_full_name`. -/
def ServerState.list_images_full_name (st : ServerState) : List String :=
  (st.list_images).map (fun di => di.2.full_name)

/-- Models `ServerState::find_image`: parse the name as an `ImageDesc` and search
the flattened image list for an equal descriptor. -/
def ServerState.find_image (st : ServerState) (name : String) :
    Option (Driver × ImageDesc) :=
  match ImageDesc.fromStr name with
  | Except.error _ => none
  | Except.ok desc => st.list_images.find? (fun di => decide (desc = di.2))

/-- Models `ServerShard` (src/server.rs); the shared `config` reference is left
implicit (the option-handler table is the fixed one built by
`ServerConfig::new`). -/
structure ServerShard where
  state : ServerState
  image : Option Image
  tx_flags : Nat
  client_flags : Nat

/-- The shard constructed for each accepted connection in `Server::run`. -/
def ServerShard.new (st : ServerState) : ServerShard :=
  { state := st, image := none, tx_flags := DEFAULT_TX_FLAGS, client_flags := 0 }

/-- Models `self.client_flags = client_flags` in `ServerShard::handle_connection`
after reading the client-flags word. -/
def ServerShard.setClientFlags (shard : ServerShard) (cf : Nat) : ServerShard :=
  { shard with client_flags := cf }

/-- Models `OptReply` (src/server.rs): a generic option reply. -/
structure OptReply where
  option : NbdOpt
  reply : NbdOptReply
  data : List UInt8
deriving DecidableEq, Repr

/-- Models `ExportNameOptReply` (src/server.rs). -/
structure ExportNameOptReply where
  size : Nat
  tx_flags : Nat
  no_zeros : Bool
deriving DecidableEq, Repr

/-- Models `<ExportNameOptReply as NbdWrite>::nbd_write`: `u64` size, `u16`
transmission flags, then `&ZEROS[..124]` unless `no_zeros`. -/
def ExportNameOptReply.bytes (r : ExportNameOptReply) : List UInt8 :=
  u64BE r.size ++ u16BE r.tx_flags ++ (if r.no_zeros then [] else ZEROS.take 124)

/-- One structured write an option handler performs on the socket. -/
inductive Reply where
  | opt (r : OptReply)
  | exportName (r : ExportNameOptReply)
deriving DecidableEq, Repr

/-- Models `OptionHandleState` (src/server.rs). -/
inductive OptionHandleState where
  | Continue
  | End
  | Abort
deriving DecidableEq, Repr

/-- Result of running one option handler: the replies written to the socket
before returning, and the `io::Result` value (updated shard plus
`OptionHandleState` on success). -/
structure HandlerOutcome where
  written : List Reply
  result : Except ErrKind (ServerShard × OptionHandleState)

/-- The type of `OptionHandler::handle_option`. -/
def OptionHandlerFn : Type :=
  ServerShard → NbdOpt → List UInt8 → HandlerOutcome

/-- Models `UnknownOptionHandler::handle_option`: reply `ErrUnsup` with payload
`format!("unknown option {}", opt as i32)`, then `Continue`. -/
def unknownOptionHandle : OptionHandlerFn := fun shard opt _data =>
  { written :=
      [Reply.opt
        { option := opt, reply := NbdOptReply.ErrUnsup,
          data := utf8Encode ("unknown option " ++ toString (i32OfU32 opt.code)) }],
    result := Except.ok (shard, OptionHandleState.Continue) }

/-- Models `ExportNameOptionHandler::handle_option`: decode the payload as UTF-8
(`InvalidInput` on failure), `find_image` (`InvalidData` error on failure),
`open` the image, store it in the shard, then write the `ExportName` reply
and end negotiation. -/
def exportNameOptionHandle : OptionHandlerFn := fun shard _opt data =>
  match utf8Decode data with
  | none => { written := [], result := Except.error ErrKind.invalidInput }
  | some image_name =>
    match shard.state.find_image image_name with
    | none => { written := [], result := Except.error ErrKind.invalidData }
    | some (drv, desc) =>
      match drv.openImage desc with
      | Except.error e => { written := [], result := Except.error e }
      | Except.ok image =>
        let info := image.info
        let shard' := { shard with image := some image }
        { written :=
            [Reply.exportName
              { size := info.size % 2 ^ 64, tx_flags := shard'.tx_flags,
                no_zeros :=
                  NbdClientFlag.contains shard'.client_flags
                    NbdClientFlag.NO_ZEROES }],
          result := Except.ok (shard', OptionHandleState.End) }

/-- Models `AbortOptionHandler::handle_option`: write `Ack` with empty payload,
return `Abort`. -/
def abortOptionHandle : OptionHandlerFn := fun shard opt _data =>
  { written :=
      [Reply.opt { option := opt, reply := NbdOptReply.Ack, data := [] }],
    result := Except.ok (shard, OptionHandleState.Abort) }

/-- Payload of one `Server` reply in `ListOptionHandler::handle_option`:
native-endian `u32` byte length, the UTF-8 bytes, then four zero bytes. -/
def listServerReplyData (image : String) : List UInt8 :=
  u32NE (utf8Encode image).length ++ utf8Encode image ++ [0, 0, 0, 0]

/-- Models `ListOptionHandler::handle_option`: one `Server` reply per image full
name, a final `Ack` with empty payload, then `Continue`. -/
def listOptionHandle : OptionHandlerFn := fun shard opt _data =>
  { written :=
      (shard.state.list_images_full_name).map
        (fun image =>
          Reply.opt
            { option := opt, reply := NbdOptReply.Server,
              data := listServerReplyData image }) ++
        [Reply.opt { option := opt, reply := NbdOptReply.Ack, data := [] }],
    result := Except.ok (shard, OptionHandleState.Continue) }

/-- The option-handler map installed by `ServerConfig::setup_option_handlers`,
as an association list. -/
def option_handlers : List (NbdOpt × OptionHandlerFn) :=
  [(NbdOpt.ExportName, exportNameOptionHandle),
   (NbdOpt.Abort, abortOptionHandle),
   (NbdOpt.List, listOptionHandle)]

/-- Models `ServerConfig::handle_option`: dispatch through the handler map, falling
back to `UnknownOptionHandler` when the option has no entry. -/
def ServerConfig.handle_option (shard : ServerShard) (opt : NbdOpt)
    (data : List UInt8) : HandlerOutcome :=
  match option_handlers.find? (fun p => p.1 == opt) with
  | some p => p.2 shard opt data
  | none => unknownOptionHandle shard opt data

/-- What `ServerShard::handle_connection` does with one handler result. -/
inductive OptionLoopOutcome where
  | nextOption
  | beginTransmission
  | sessionError (e : ErrKind)
deriving DecidableEq, Repr

/-- The `?` plus the `match` on `OptionHandleState` in the option loop of
`ServerShard::handle_connection`: errors propagate, `Continue` re-enters the
loop, `End` breaks into transmission, `Abort` returns
`Err(ErrorKind::InvalidData)`. -/
def optionLoopOutcome
    (r : Except ErrKind (ServerShard × OptionHandleState)) :
    OptionLoopOutcome :=
  match r with
  | Except.error e => OptionLoopOutcome.sessionError e
  | Except.ok (_, OptionHandleState.Continue) => OptionLoopOutcome.nextOption
  | Except.ok (_, OptionHandleState.End) => OptionLoopOutcome.beginTransmission
  | Except.ok (_, OptionHandleState.Abort) =>
      OptionLoopOutcome.sessionError ErrKind.invalidData

/-- Is a written reply a `Server`-kind option reply? -/
def Reply.isServer : Reply → Bool
  | Reply.opt r => r.reply == NbdOptReply.Server
  | Reply.exportName _ => false

/-! ## Concrete fixtures for witnesses and counterexamples -/

/-- The empty server state: no default driver, no exported images. -/
def stateE : ServerState := { default_driver := none, images := [] }

/-- The descriptor obtained by parsing `"img/fs"`. -/
def descW : ImageDesc := { driver_name := "img", name := "fs" }

/-- A 1-MiB read-only test image. -/
def imgW : Image :=
  ⟨{ name := "img", info := { size := 0x100000, readonly := true } }⟩

/-- A test driver whose `open` always succeeds with `imgW`. -/
def drvW : Driver := ⟨{ name := "fs", openImage := fun _ => Except.ok imgW }⟩

/-- A server state exporting exactly `descW` through `drvW`. -/
def stateW : ServerState := { default_driver := none, images := [(drvW, [descW])] }

/-- The shard of a fresh connection against `stateW`. -/
def shardW : ServerShard := ServerShard.new stateW

/-- The UTF-8 bytes of `"img/fs"`. -/
def dataW : List UInt8 := [105, 109, 103, 47, 102, 115]

/-- A second constructor registered under the already-present name `"fs"`,
with an implementation distinguishable from `FsDriver`. -/
def duplicateFsConstructor : DriverConstructorModel :=
  { name := "fs",
    construct := fun _ =>
      { name := "fs-dup", openImage := fun _ => Except.error ErrKind.other } }

/-! ## Helper lemmas -/

theorem splitOnceAux_some_iff (c : Char) :
    ∀ (l a b : List Char),
      splitOnceAux c l = some (a, b) ↔ l = a ++ c :: b ∧ c ∉ a := by
  intro l
  induction l with
  | nil =>
    intro a b
    simp [splitOnceAux]
  | cons x xs ih =>
    intro a b
    simp only [splitOnceAux]
    by_cases hx : x = c
    · subst hx
      rw [if_pos rfl]
      simp only [Option.some.injEq, Prod.mk.injEq]
      cases a with
      | nil => simp
      | cons a0 a' =>
        constructor
        · intro h
          exact absurd h.1 (by simp)
        · rintro ⟨hl, hmem⟩
          simp only [List.cons_append, List.cons.injEq] at hl
          simp only [List.mem_cons, not_or] at hmem
          exact absurd hl.1 hmem.1
    · rw [if_neg hx]
      cases hsplit : splitOnceAux c xs with
      | none =>
        constructor
        · intro h; cases h
        · rintro ⟨hl, hmem⟩
          cases a with
          | nil =>
            simp only [List.nil_append, List.cons.injEq] at hl
            exact absurd hl.1 hx
          | cons a0 a' =>
            simp only [List.cons_append, List.cons.injEq] at hl
            simp only [List.mem_cons, not_or] at hmem
            have h2 := (ih a' b).mpr ⟨hl.2, hmem.2⟩
            rw [h2] at hsplit
            cases hsplit
      | some ab =>
        obtain ⟨a1, b1⟩ := ab
        have h1 := (ih a1 b1).mp hsplit
        simp only [Option.some.injEq, Prod.mk.injEq]
        constructor
        · rintro ⟨rfl, rfl⟩
          refine ⟨by rw [h1.1, List.cons_append], ?_⟩
          simp only [List.mem_cons, not_or]
          exact ⟨fun h => hx h.symm, h1.2⟩
        · rintro ⟨hl, hmem⟩
          cases a with
          | nil =>
            simp only [List.nil_append, List.cons.injEq] at hl
            exact absurd hl.1 hx
          | cons a0 a' =>
            simp only [List.cons_append, List.cons.injEq] at hl
            simp only [List.mem_cons, not_or] at hmem
            have h2 := (ih a' b).mpr ⟨hl.2, hmem.2⟩
            rw [h2] at hsplit
            simp only [Option.some.injEq, Prod.mk.injEq] at hsplit
            refine ⟨?_, hsplit.2.symm⟩
            rw [hl.1, hsplit.1]

theorem stringMk_isEmpty (l : List Char) :
    (String.mk l).isEmpty = true ↔ l = [] := by
  rw [String.isEmpty_iff, String.ext_iff]

theorem handle_option_exportName (shard : ServerShard) (data : List UInt8) :
    ServerConfig.handle_option shard NbdOpt.ExportName data =
      exportNameOptionHandle shard NbdOpt.ExportName data := rfl

theorem handle_option_abort (shard : ServerShard) (data : List UInt8) :
    ServerConfig.handle_option shard NbdOpt.Abort data =
      abortOptionHandle shard NbdOpt.Abort data := rfl

theorem handle_option_list (shard : ServerShard) (data : List UInt8) :
    ServerConfig.handle_option shard NbdOpt.List data =
      listOptionHandle shard NbdOpt.List data := rfl

theorem exportName_result_analysis (shard shard' : ServerShard) (opt : NbdOpt)
    (data : List UInt8) (hs : OptionHandleState)
    (h : (exportNameOptionHandle shard opt data).result = Except.ok (shard', hs)) :
    shard'.tx_flags = shard.tx_flags := by
  simp only [exportNameOptionHandle] at h
  cases hdec : utf8Decode data with
  | none => simp only [hdec] at h; cases h
  | some nm =>
    simp only [hdec] at h
    cases hfind : shard.state.find_image nm with
    | none => simp only [hfind] at h; cases h
    | some p =>
      obtain ⟨drv, desc⟩ := p
      simp only [hfind] at h
      cases hopen : drv.openImage desc with
      | error e => simp only [hopen] at h; cases h
      | ok image =>
        simp only [hopen] at h
        simp only [Except.ok.injEq, Prod.mk.injEq] at h
        rw [← h.1]

theorem exportName_written_analysis (shard : ServerShard) (opt : NbdOpt)
    (data : List UInt8) (r : ExportNameOptReply)
    (h : Reply.exportName r ∈ (exportNameOptionHandle shard opt data).written) :
    r.tx_flags = shard.tx_flags := by
  simp only [exportNameOptionHandle] at h
  cases hdec : utf8Decode data with
  | none => simp only [hdec] at h; simp at h
  | some nm =>
    simp only [hdec] at h
    cases hfind : shard.state.find_image nm with
    | none => simp only [hfind] at h; simp at h
    | some p =>
      obtain ⟨drv, desc⟩ := p
      simp only [hfind] at h
      cases hopen : drv.openImage desc with
      | error e => simp only [hopen] at h; simp at h
      | ok image =>
        simp only [hopen] at h
        simp only [List.mem_singleton, Reply.exportName.injEq] at h
        rw [h]

theorem result_txFlags (shard shard' : ServerShard) (opt : NbdOpt)
    (data : List UInt8) (hs : OptionHandleState)
    (h : (ServerConfig.handle_option shard opt data).result =
      Except.ok (shard', hs)) :
    shard'.tx_flags = shard.tx_flags := by
  unfold ServerConfig.handle_option at h
  cases hf : option_handlers.find? (fun p => p.1 == opt) with
  | none =>
    simp only [hf] at h
    simp only [unknownOptionHandle, Except.ok.injEq, Prod.mk.injEq] at h
    rw [← h.1]
  | some p =>
    simp only [hf] at h
    have hp := List.mem_of_find?_eq_some hf
    simp only [option_handlers, List.mem_cons, List.mem_singleton,
      List.not_mem_nil, or_false] at hp
    rcases hp with rfl | rfl | rfl
    · exact exportName_result_analysis shard shard' opt data hs h
    · simp only [abortOptionHandle, Except.ok.injEq, Prod.mk.injEq] at h
      rw [← h.1]
    · simp only [listOptionHandle, Except.ok.injEq, Prod.mk.injEq] at h
      rw [← h.1]

theorem written_txFlags (shard : ServerShard) (opt : NbdOpt)
    (data : List UInt8) (r : ExportNameOptReply)
    (h : Reply.exportName r ∈ (ServerConfig.handle_option shard opt data).written) :
    r.tx_flags = shard.tx_flags := by
  unfold ServerConfig.handle_option at h
  cases hf : option_handlers.find? (fun p => p.1 == opt) with
  | none =>
    simp only [hf] at h
    simp [unknownOptionHandle] at h
  | some p =>
    simp only [hf] at h
    have hp := List.mem_of_find?_eq_some hf
    simp only [option_handlers, List.mem_cons, List.mem_singleton,
      List.not_mem_nil, or_false] at hp
    rcases hp with rfl | rfl | rfl
    · exact exportName_written_analysis shard opt data r h
    · simp [abortOptionHandle] at h
    · simp [listOptionHandle] at h

/-! ## Claim theorems -/

/-- Claim C1 (code bug in the source): round-tripping an `ImageDesc` through
`full_name` and `from_str` is claimed to be the identity for non-empty
fields, but the parser binds the component before the '/' to `driver_name`
while `full_name` prints `name` first, so the two fields come back swapped:
at `d` with `driver_name = "fs"`, `name = "img"`, `full_name d = "img/fs"`
parses back to `driver_name = "img"`, `name = "fs"`, which differs
from `d`. -/
theorem imageDesc_roundtrip_swaps_fields :
    ImageDesc.full_name ⟨"fs", "img"⟩ = "img/fs" ∧
    ImageDesc.fromStr (ImageDesc.full_name ⟨"fs", "img"⟩) =
      Except.ok ⟨"img", "fs"⟩ ∧
    (⟨"img", "fs"⟩ : ImageDesc) ≠ (⟨"fs", "img"⟩ : ImageDesc) :=
  ⟨rfl, rfl, by decide⟩

/-- Counterexample for claim C2 as stated: the transmission-flags field the
server writes for a successful `ExportName` of the 1-MiB image is not
`0x0045`; the reply bytes differ from the claimed sequence at the flags
field. -/
theorem exportName_txflags_0x45_counterexample :
    (ServerConfig.handle_option shardW NbdOpt.ExportName dataW).written =
      [Reply.exportName ⟨0x100000, DEFAULT_TX_FLAGS, false⟩] ∧
    ExportNameOptReply.bytes ⟨0x100000, DEFAULT_TX_FLAGS, false⟩ ≠
      [0, 0, 0, 0, 0, 0x10, 0, 0] ++ [0x00, 0x45] ++ List.replicate 124 0 :=
  ⟨rfl, by decide⟩

/-- Claim C2 (corrected): for a successful `ExportName` of a known 1-MiB
image under the default configuration, with a client that did not negotiate
`NO_ZEROES`, the server writes the 8-byte size `0x0000000000100000`, then
the 2-byte transmission-flags field with value `0x0065` (equal to
`HAS_FLAGS|SEND_FLUSH|SEND_TRIM|SEND_WRITE_ZEROES`), then 124 zero bytes. -/
theorem exportName_reply_bytes_spec :
    (ServerConfig.handle_option shardW NbdOpt.ExportName dataW).written =
      [Reply.exportName ⟨0x100000, DEFAULT_TX_FLAGS, false⟩] ∧
    ExportNameOptReply.bytes ⟨0x100000, DEFAULT_TX_FLAGS, false⟩ =
      [0, 0, 0, 0, 0, 0x10, 0, 0] ++ [0x00, 0x65] ++ List.replicate 124 0 ∧
    DEFAULT_TX_FLAGS =
      (NbdTxFlag.HAS_FLAGS ||| NbdTxFlag.SEND_FLUSH ||| NbdTxFlag.SEND_TRIM |||
        NbdTxFlag.SEND_WRITE_ZEROES) ∧
    DEFAULT_TX_FLAGS = 0x65 :=
  ⟨rfl, by decide, by decide, by decide⟩

/-- Counterexample for claim C3 as stated: on an `ExportName` whose
`find_image` lookup fails (here: empty state, name `"a/b"`), the handler
does not write any option reply and does not return `Abort`; it fails with
an `InvalidData` error. -/
theorem exportName_notfound_counterexample :
    (ServerConfig.handle_option (ServerShard.new stateE) NbdOpt.ExportName
        [97, 47, 98]).written = [] ∧
    (ServerConfig.handle_option (ServerShard.new stateE) NbdOpt.ExportName
        [97, 47, 98]).result = Except.error ErrKind.invalidData :=
  ⟨rfl, rfl⟩

/-- Claim C3 (corrected): whenever the `ExportName` handler's `find_image`
lookup fails, the handler writes no option reply and fails with an
`InvalidData` error; the error propagates out of the option loop and closes
the connection (no `Abort` status is returned). -/
theorem exportName_notfound_spec (shard : ServerShard) (data : List UInt8)
    (s : String) (hdec : utf8Decode data = some s)
    (hfind : shard.state.find_image s = none) :
    (ServerConfig.handle_option shard NbdOpt.ExportName data).written = [] ∧
    (ServerConfig.handle_option shard NbdOpt.ExportName data).result =
      Except.error ErrKind.invalidData ∧
    optionLoopOutcome
        (ServerConfig.handle_option shard NbdOpt.ExportName data).result =
      OptionLoopOutcome.sessionError ErrKind.invalidData := by
  rw [handle_option_exportName]
  simp only [exportNameOptionHandle, hdec, hfind]
  exact ⟨trivial, trivial, rfl⟩

/-- Witness for the corrected claim C3 at the empty state and name
`"a/b"`. -/
theorem exportName_notfound_spec_witness :
    (ServerConfig.handle_option (ServerShard.new stateE) NbdOpt.ExportName
        [97, 47, 98]).result = Except.error ErrKind.invalidData ∧
    optionLoopOutcome
        (ServerConfig.handle_option (ServerShard.new stateE) NbdOpt.ExportName
          [97, 47, 98]).result =
      OptionLoopOutcome.sessionError ErrKind.invalidData :=
  ⟨(exportName_notfound_spec (ServerShard.new stateE) [97, 47, 98] "a/b"
      rfl rfl).2.1,
   (exportName_notfound_spec (ServerShard.new stateE) [97, 47, 98] "a/b"
      rfl rfl).2.2⟩

/-- Claim C4 (code bug in the source): `DriverRegistry::register_driver`
pushes unconditionally, so registering a second factory under the
already-present name `"fs"` is not a no-op: the list of driver names gains
a duplicate entry.  `get_driver` still constructs the originally registered
factory, because lookup takes the first match. -/
theorem duplicate_registration_not_noop :
    DriverRegistry.new.list_drivers = ["fs"] ∧
    (DriverRegistry.new.register_driver duplicateFsConstructor).list_drivers =
      ["fs", "fs"] ∧
    (DriverRegistry.new.register_driver duplicateFsConstructor).get_driver ("fs")
        ⟨[]⟩ = DriverRegistry.new.get_driver ("fs") ⟨[]⟩ ∧
    ((DriverRegistry.new.register_driver duplicateFsConstructor).get_driver ("fs")
        ⟨[]⟩).map (fun d => d.name) = some ("fs") :=
  ⟨rfl, rfl, rfl, rfl⟩

/-- Counterexample for claim C5 as stated: after the `Abort` handler writes
its `Ack` reply, the connection handler does not end the session cleanly;
the option loop maps the `Abort` status to `Err(InvalidData)`. -/
theorem abort_not_clean_end_counterexample :
    (ServerConfig.handle_option (ServerShard.new stateE) NbdOpt.Abort []).written =
      [Reply.opt ⟨NbdOpt.Abort, NbdOptReply.Ack, []⟩] ∧
    optionLoopOutcome
        (ServerConfig.handle_option (ServerShard.new stateE) NbdOpt.Abort []).result =
      OptionLoopOutcome.sessionError ErrKind.invalidData :=
  ⟨rfl, rfl⟩

/-- Claim C5 (corrected): on the Abort option (code 2) the server writes an
`Ack` reply with empty payload and the handler returns `Abort`; the
connection handler then terminates the session by returning an
`InvalidData` error (the session is not ended cleanly). -/
theorem abort_option_spec (shard : ServerShard) (data : List UInt8) :
    NbdOpt.Abort.code = 2 ∧
    (ServerConfig.handle_option shard NbdOpt.Abort data).written =
      [Reply.opt ⟨NbdOpt.Abort, NbdOptReply.Ack, []⟩] ∧
    (ServerConfig.handle_option shard NbdOpt.Abort data).result =
      Except.ok (shard, OptionHandleState.Abort) ∧
    optionLoopOutcome
        (ServerConfig.handle_option shard NbdOpt.Abort data).result =
      OptionLoopOutcome.sessionError ErrKind.invalidData :=
  ⟨rfl, rfl, rfl, rfl⟩

/-- Counterexample for claim C6 as stated: `"a/b/c"` contains two '/'
characters, yet parsing succeeds (splitting at the first one). -/
theorem fromStr_two_slashes_counterexample :
    ("a/b/c" : String).data.count '/' = 2 ∧
    ImageDesc.fromStr ("a/b/c") = Except.ok ⟨"a", "b/c"⟩ :=
  ⟨by decide, rfl⟩

/-- Claim C6 (corrected): `ImageDesc` parsing succeeds iff the string
contains at least one '/' and both the part before the first '/' and the
part after it are non-empty; every other string fails with an
`InvalidData` error. -/
theorem fromStr_ok_iff (s : String) :
    ((ImageDesc.fromStr s).isOk = true ↔
      ∃ a b, s.data = a ++ '/' :: b ∧ '/' ∉ a ∧ a ≠ [] ∧ b ≠ []) ∧
    ((ImageDesc.fromStr s).isOk = false →
      ImageDesc.fromStr s = Except.error ErrKind.invalidData) := by
  cases hsplit : splitOnceAux '/' s.data with
  | none =>
    have e : ImageDesc.fromStr s = Except.error ErrKind.invalidData := by
      simp only [ImageDesc.fromStr, splitOnce, hsplit]
    rw [e]
    constructor
    · simp only [Except.isOk, Except.toBool, Bool.false_eq_true, false_iff]
      rintro ⟨a, b, hd, hmem, -, -⟩
      have h2 := (splitOnceAux_some_iff '/' s.data a b).mpr ⟨hd, hmem⟩
      rw [h2] at hsplit
      cases hsplit
    · intro
      rfl
  | some ab =>
    obtain ⟨a0, b0⟩ := ab
    have h1 := (splitOnceAux_some_iff '/' s.data a0 b0).mp hsplit
    have e : ImageDesc.fromStr s =
        (if (String.mk a0).isEmpty || (String.mk b0).isEmpty then
          Except.error ErrKind.invalidData
        else Except.ok ⟨String.mk a0, String.mk b0⟩) := by
      simp only [ImageDesc.fromStr, splitOnce, hsplit]
    rw [e]
    by_cases he : ((String.mk a0).isEmpty || (String.mk b0).isEmpty) = true
    · rw [if_pos he]
      constructor
      · simp only [Except.isOk, Except.toBool, Bool.false_eq_true, false_iff]
        rintro ⟨a, b, hd, hmem, hna, hnb⟩
        have h2 := (splitOnceAux_some_iff '/' s.data a b).mpr ⟨hd, hmem⟩
        rw [h2] at hsplit
        simp only [Option.some.injEq, Prod.mk.injEq] at hsplit
        obtain ⟨rfl, rfl⟩ := hsplit
        rcases Bool.or_eq_true_iff.mp he with h | h
        · exact hna ((stringMk_isEmpty _).mp h)
        · exact hnb ((stringMk_isEmpty _).mp h)
      · intro
        rfl
    · rw [if_neg he]
      constructor
      · simp only [Except.isOk, Except.toBool, true_iff]
        refine ⟨a0, b0, h1.1, h1.2, ?_, ?_⟩
        · intro hn
          apply he
          rw [Bool.or_eq_true_iff]
          exact Or.inl ((stringMk_isEmpty a0).mpr hn)
        · intro hn
          apply he
          rw [Bool.or_eq_true_iff]
          exact Or.inr ((stringMk_isEmpty b0).mpr hn)
      · intro h
        cases h

/-- Witness for the corrected claim C6 at `"abc"` (no '/'): parsing fails
with `InvalidData`. -/
theorem fromStr_ok_iff_witness :
    (ImageDesc.fromStr ("abc")).isOk = false ∧
    ImageDesc.fromStr ("abc") = Except.error ErrKind.invalidData :=
  ⟨rfl, (fromStr_ok_iff ("abc")).2 rfl⟩

/-- Claim C7 (confirmed): on the List option the server writes, for each
exported image full name S, one `Server` reply whose payload is the 4-byte
native-endian byte length of S, S's UTF-8 bytes, and 4 zero bytes, then a
single `Ack` with empty payload, and returns Continue; the number of
`Server` replies equals the current count of exported images. -/
theorem list_option_spec (shard : ServerShard) (data : List UInt8) :
    (ServerConfig.handle_option shard NbdOpt.List data).written =
      (shard.state.list_images_full_name).map (fun s =>
        Reply.opt ⟨NbdOpt.List, NbdOptReply.Server,
          u32NE (utf8Encode s).length ++ utf8Encode s ++ [0, 0, 0, 0]⟩) ++
        [Reply.opt ⟨NbdOpt.List, NbdOptReply.Ack, []⟩] ∧
    (ServerConfig.handle_option shard NbdOpt.List data).result =
      Except.ok (shard, OptionHandleState.Continue) ∧
    ((ServerConfig.handle_option shard NbdOpt.List data).written.countP
        Reply.isServer) = (shard.state.list_images).length := by
  refine ⟨rfl, rfl, ?_⟩
  rw [handle_option_list]
  simp only [listOptionHandle]
  rw [List.countP_append, List.countP_map]
  have h1 : List.countP (Reply.isServer ∘ fun s =>
      Reply.opt ⟨NbdOpt.List, NbdOptReply.Server, listServerReplyData s⟩)
      (shard.state.list_images_full_name) =
      (shard.state.list_images_full_name).length :=
    List.countP_eq_length.mpr (fun a _ => rfl)
  rw [h1]
  simp [ServerState.list_images_full_name, List.countP, List.countP.go,
    Reply.isServer]
  decide

/-- Claim C8 (confirmed): for every option code with no entry in the
option-handler map, the server replies `ErrUnsup` with payload exactly the
UTF-8 string `"unknown option <n>"` (n the option code as a signed
decimal), and negotiation continues. -/
theorem unknown_option_spec (shard : ServerShard) (opt : NbdOpt)
    (data : List UInt8)
    (h : option_handlers.find? (fun p => p.1 == opt) = none) :
    ServerConfig.handle_option shard opt data =
      { written := [Reply.opt ⟨opt, NbdOptReply.ErrUnsup,
          utf8Encode ("unknown option " ++ toString (i32OfU32 opt.code))⟩],
        result := Except.ok (shard, OptionHandleState.Continue) } := by
  unfold ServerConfig.handle_option
  rw [h]
  rfl

/-- Witness for claim C8 at `PeekExport` (code 4): the payload is the UTF-8
string `"unknown option 4"`. -/
theorem unknown_option_spec_witness :
    option_handlers.find? (fun p => p.1 == NbdOpt.PeekExport) = none ∧
    ServerConfig.handle_option (ServerShard.new stateE) NbdOpt.PeekExport [] =
      { written := [Reply.opt ⟨NbdOpt.PeekExport, NbdOptReply.ErrUnsup,
          utf8Encode ("unknown option 4")⟩],
        result :=
          Except.ok (ServerShard.new stateE, OptionHandleState.Continue) } :=
  ⟨rfl, unknown_option_spec (ServerShard.new stateE) NbdOpt.PeekExport [] rfl⟩

/-- Claim C9 (confirmed): a shard's advertised transmission flags equal
`HAS_FLAGS|SEND_FLUSH|SEND_TRIM|SEND_WRITE_ZEROES = 0x0065`: they are set
to `DEFAULT_TX_FLAGS` when the connection is accepted, neither the
handshake nor any option handler modifies them, every `ExportName` reply
carries exactly the shard's flags, and the `READ_ONLY` bit is not among
them (regardless of the opened image's `readonly` field, which the handler
never consults for the flags). -/
theorem tx_flags_invariant :
    DEFAULT_TX_FLAGS = 0x65 ∧
    DEFAULT_TX_FLAGS &&& NbdTxFlag.READ_ONLY = 0 ∧
    (∀ st : ServerState, (ServerShard.new st).tx_flags = DEFAULT_TX_FLAGS) ∧
    (∀ (shard : ServerShard) (cf : Nat),
      (shard.setClientFlags cf).tx_flags = shard.tx_flags) ∧
    (∀ (shard shard' : ServerShard) (opt : NbdOpt) (data : List UInt8)
      (hs : OptionHandleState),
      (ServerConfig.handle_option shard opt data).result =
        Except.ok (shard', hs) → shard'.tx_flags = shard.tx_flags) ∧
    (∀ (shard : ServerShard) (opt : NbdOpt) (data : List UInt8)
      (r : ExportNameOptReply),
      Reply.exportName r ∈ (ServerConfig.handle_option shard opt data).written →
        r.tx_flags = shard.tx_flags) :=
  ⟨by decide, by decide, fun _ => rfl, fun _ _ => rfl,
   fun shard shard' opt data hs h => result_txFlags shard shard' opt data hs h,
   fun shard opt data r h => written_txFlags shard opt data r h⟩

/-- Witness for claim C9: a successful `Abort` step preserves the flags,
and the `ExportName` reply produced for the read-only 1-MiB image carries
flags `0x65`, equal to the shard's. -/
theorem tx_flags_invariant_witness :
    ((ServerConfig.handle_option shardW NbdOpt.Abort []).result =
      Except.ok (shardW, OptionHandleState.Abort)) ∧
    shardW.tx_flags = shardW.tx_flags ∧
    (Reply.exportName ⟨0x100000, 0x65, false⟩ ∈
      (ServerConfig.handle_option shardW NbdOpt.ExportName dataW).written) ∧
    (⟨0x100000, 0x65, false⟩ : ExportNameOptReply).tx_flags = shardW.tx_flags :=
  ⟨rfl,
   tx_flags_invariant.2.2.2.2.1 shardW shardW NbdOpt.Abort []
     OptionHandleState.Abort rfl,
   List.mem_singleton.mpr rfl,
   tx_flags_invariant.2.2.2.2.2 shardW NbdOpt.ExportName dataW
     ⟨0x100000, 0x65, false⟩ (List.mem_singleton.mpr rfl)⟩

/-- Claim C10 (confirmed): if the payload of an `ExportName` option is not
valid UTF-8, the handler fails with an `InvalidInput` error before writing
anything, no option reply is sent, and the error propagates out of the
option loop, closing the connection. -/
theorem exportName_invalid_utf8_spec (shard : ServerShard)
    (data : List UInt8) (h : utf8Decode data = none) :
    (ServerConfig.handle_option shard NbdOpt.ExportName data).written = [] ∧
    (ServerConfig.handle_option shard NbdOpt.ExportName data).result =
      Except.error ErrKind.invalidInput ∧
    optionLoopOutcome
        (ServerConfig.handle_option shard NbdOpt.ExportName data).result =
      OptionLoopOutcome.sessionError ErrKind.invalidInput := by
  rw [handle_option_exportName]
  simp only [exportNameOptionHandle, h]
  exact ⟨trivial, trivial, rfl⟩

/-- Witness for claim C10 at the invalid byte `0xFF`. -/
theorem exportName_invalid_utf8_spec_witness :
    utf8Decode [0xFF] = none ∧
    (ServerConfig.handle_option (ServerShard.new stateE) NbdOpt.ExportName
        [0xFF]).written = [] ∧
    (ServerConfig.handle_option (ServerShard.new stateE) NbdOpt.ExportName
        [0xFF]).result = Except.error ErrKind.invalidInput :=
  ⟨rfl,
   (exportName_invalid_utf8_spec (ServerShard.new stateE) [0xFF] rfl).1,
   (exportName_invalid_utf8_spec (ServerShard.new stateE) [0xFF] rfl).2.1⟩

end Nbdsrv
